import Mathlib

/-!
Shallow embedding of the offline-first record synchronization engine of the
battlefield-medical-ai repository.

Two code locations implement the sync engine:

* `src/frontend/src/services/offlineDB.js` — the IndexedDB-backed local store
  (`BattlefieldMedicalDB`): medical-record persistence, the `sync_queue` object
  store, `calculateSyncPriority`, `addToSyncQueue`, `getPendingSyncItems`,
  `markAsSynced`; together with the per-item delivery loop of
  `src/frontend/src/hooks/useOfflineSync.js` (`attemptSync`).

* `src/unnamed/part_005` — the in-memory `SyncManager` (queue of sync items,
  `queueForSync`, `processSyncBatch`, `forceSync`, `clearQueue`,
  `getSyncStatus`, `activateEmergencySync`).

Timestamps are modelled as `Nat` (milliseconds since epoch); nondeterministic
or external effects (network success, `Math.random`, generated ids) are passed
in as explicit oracle parameters.  JavaScript's stable `Array.prototype.sort`
is modelled by `List.insertionSort`, which inserts each element before the
first element it is related to and is therefore stable.
-/

/-! ## offlineDB.js: data model -/

/-- Medical record as stored in the `medical_records` object store by
`saveMedicalRecord`: key `id` (autoIncrement), clinical fields used by
`calculateSyncPriority`, and the sync metadata mutated by `markAsSynced`.
The encrypted payload is opaque and omitted. -/
structure MedRecord where
  id : Nat
  soldierId : String
  triageLevel : Option String
  emergencyActions : Option (List String)
  synced : Bool
  syncAttempts : Nat
  syncPriority : Nat
  lastSyncAttempt : Option Nat
  createdAt : Nat
  updatedAt : Nat
deriving DecidableEq

/-- Entry of the `sync_queue` object store, as created by `addToSyncQueue`:
`{ type, recordId, priority, timestamp, attempts, lastAttempt }` plus the
autoIncrement key `id`.  The source field `type` is called `entryType` here. -/
structure SyncQueueItem where
  id : Nat
  entryType : String
  recordId : Nat
  priority : Nat
  timestamp : Nat
  attempts : Nat
  lastAttempt : Option Nat
deriving DecidableEq

/-- State of the IndexedDB database `BattlefieldMedical`: the
`medical_records` store, the `sync_queue` store, and the next autoIncrement
key for `sync_queue`. -/
structure DBState where
  records : List MedRecord
  syncQueue : List SyncQueueItem
  nextQueueId : Nat
deriving DecidableEq

/-- Names of the indexes created on the `sync_queue` object store by the
version-4 branch of the `init` upgrade callback:
`syncStore.createIndex('priority', 'priority')` and
`syncStore.createIndex('timestamp', 'timestamp')`.  No other index is ever
created on `sync_queue`. -/
def syncQueueIndexNames : List String := ["priority", "timestamp"]

/-- Truthiness of `record.emergencyActions && record.emergencyActions.length > 0`:
the field is present and a non-empty array. -/
def emergencyActionsPresent (r : MedRecord) : Bool :=
  match r.emergencyActions with
  | some l => decide (0 < l.length)
  | none => false

/-- Embedding of `calculateSyncPriority(record)` from offlineDB.js:
IMMEDIATE triage gives 1, otherwise non-empty emergency actions give 1,
otherwise DELAYED triage gives 2, otherwise 3. -/
def calculateSyncPriority (r : MedRecord) : Nat :=
  if r.triageLevel = some ("IMMEDIATE") then 1
  else if (match r.emergencyActions with
           | some l => decide (0 < l.length)
           | none => false) = true then 1
  else if r.triageLevel = some ("DELAYED") then 2
  else 3

/-- Specification-side classifier contract `classify(triageLevel,
emergencyActionsPresent) -> {1,2,3}`, written from the spec's rule list
(section 4.1); used only to compare against `calculateSyncPriority`. -/
def classifySpec (t : Option String) (e : Bool) : Nat :=
  if t = some ("IMMEDIATE") then 1
  else if e then 1
  else if t = some ("DELAYED") then 2
  else 3

/-- Embedding of `addToSyncQueue(type, recordId, priority = 3)`: `db.add` on
`sync_queue` unconditionally appends a fresh entry with `attempts: 0`,
`lastAttempt: null` and timestamp `now`, under the next autoIncrement key. -/
def addToSyncQueue (s : DBState) (entryType : String) (recordId priority now : Nat) :
    DBState :=
  { s with
    syncQueue := s.syncQueue ++
      [{ id := s.nextQueueId, entryType := entryType, recordId := recordId,
         priority := priority, timestamp := now, attempts := 0, lastAttempt := none }],
    nextQueueId := s.nextQueueId + 1 }

/-- Comparator of `getPendingSyncItems`:
`(a, b) => a.priority !== b.priority ? a.priority - b.priority : a.timestamp - b.timestamp`
read as the non-strict relation "a need not come after b". -/
def syncOrder (a b : SyncQueueItem) : Prop :=
  a.priority < b.priority ∨ (a.priority = b.priority ∧ a.timestamp ≤ b.timestamp)

instance : DecidableRel syncOrder := fun a b => by
  unfold syncOrder; infer_instance

instance : IsTotal SyncQueueItem syncOrder := by
  constructor; intro a b; unfold syncOrder; omega

instance : IsTrans SyncQueueItem syncOrder := by
  constructor; intro a b c; unfold syncOrder; omega

/-- Embedding of `getPendingSyncItems(limit = 10)`: read every `sync_queue`
entry, sort by `(priority, timestamp)` with the stable array sort, and return
the first `limit` entries.  The sort runs on the current contents on every
call. -/
def getPendingSyncItems (s : DBState) (limit : Nat) : List SyncQueueItem :=
  (List.insertionSort syncOrder s.syncQueue).take limit

/-- Embedding of `markAsSynced(recordId)`.  The record store update
(`db.get` then `db.put` with `synced = true`, `updatedAt = now`) commits
first.  The queue cleanup then calls `store.index('recordId')` on
`sync_queue`; since `init` never created an index of that name
(`syncQueueIndexNames`), the lookup throws `NotFoundError`, the surrounding
`try/catch` swallows it, and the queue entries survive.  The filter branch
below is the would-be deletion, guarded by the index actually existing. -/
def markAsSynced (s : DBState) (recordId now : Nat) : DBState :=
  let s1 :=
    match s.records.find? (fun r => r.id == recordId) with
    | some _ =>
        { s with records := s.records.map (fun x =>
            if x.id == recordId then { x with synced := true, updatedAt := now } else x) }
    | none => s
  if ("recordId") ∈ syncQueueIndexNames then
    { s1 with syncQueue := s1.syncQueue.filter (fun item => !(item.recordId == recordId)) }
  else
    s1

/-- Record lookup of the per-item loop in `attemptSync` (useOfflineSync.js):
`getMedicalRecords(soldierId)` (index scan on `soldierId`) followed by
`.find(r => r.id === item.recordId)`. -/
def lookupRecordFor (s : DBState) (soldierId : String) (recordId : Nat) :
    Option MedRecord :=
  (s.records.filter (fun r => r.soldierId == soldierId)).find? (fun r => r.id == recordId)

/-- Body of the per-item loop in `attemptSync` (useOfflineSync.js): look up
the full record; when the record is missing the item is skipped (`continue`);
otherwise the simulated API call (`ok` oracle, indexed by record id) decides
between `markAsSynced` and only counting an error. -/
def attemptSyncStep (soldierId : String) (ok : Nat → Bool) (now : Nat)
    (acc : DBState) (item : SyncQueueItem) : DBState :=
  match lookupRecordFor acc soldierId item.recordId with
  | none => acc
  | some _ => if ok item.recordId then markAsSynced acc item.recordId now else acc

/-- Embedding of one `attemptSync` pass (useOfflineSync.js): take the pending
items (`getPendingSyncItems(limit)`, the hook uses `limit = 5`) and run
`attemptSyncStep` over them. -/
def attemptSyncPass (s : DBState) (soldierId : String) (ok : Nat → Bool)
    (limit now : Nat) : DBState :=
  (getPendingSyncItems s limit).foldl (attemptSyncStep soldierId ok now) s

/-! ## part_005: SyncManager -/

/-- Record payload handed to `SyncManager.queueForSync`: the optional Mongo
`_id`, the owner, and the opaque encrypted payload. -/
structure SMRecord where
  idOpt : Option Nat
  soldierId : String
  encryptedData : String
deriving DecidableEq

/-- Item of `SyncManager.syncQueue` as built in `queueForSync`:
`{ id, record, priority, attempts, lastAttempt, timestamp, status }` plus the
`error` field written by `handleSyncFailure`. -/
structure SyncItem where
  id : Nat
  record : SMRecord
  priority : Nat
  attempts : Nat
  lastAttempt : Option Nat
  timestamp : Nat
  status : String
  error : Option String
deriving DecidableEq

/-- Remote `MedicalRecord` documents written by `syncSingleItem` (the mongoose
model), restricted to the fields the SyncManager touches. -/
structure MedicalRecordDoc where
  docId : Nat
  soldierId : String
  encryptedData : String
  synced : Bool
  syncAttempts : Nat
  lastSyncAttempt : Option Nat
  syncPriority : Option Nat
deriving DecidableEq

/-- Per-pass counters of `processSyncBatch`. -/
structure BatchResults where
  successful : Nat
  failed : Nat
  retried : Nat
deriving DecidableEq

/-- Total number of delivery attempts a `BatchResults` accounts for. -/
def resTotal (r : BatchResults) : Nat :=
  r.successful + r.failed + r.retried

/-- State of the `SyncManager` singleton: the in-memory queue and flags from
the constructor, the remote document store reached through the mongoose model,
the next Mongo id, and the failure log written by `logSyncFailure`. -/
structure SyncManagerState where
  syncQueue : List SyncItem
  isSyncing : Bool
  maxRetries : Nat
  syncBatchSize : Nat
  db : List MedicalRecordDoc
  nextDocId : Nat
  failureLog : List SyncItem
deriving DecidableEq

/-- Constructor state: empty queue, not syncing, `maxRetries = 3`,
`syncBatchSize = 10`. -/
def initSyncManager : SyncManagerState :=
  { syncQueue := [], isSyncing := false, maxRetries := 3, syncBatchSize := 10,
    db := [], nextDocId := 0, failureLog := [] }

/-- Comparator used by `queueForSync`'s sort: `(priority, timestamp)`
ascending, as a non-strict relation. -/
def syncItemOrder (a b : SyncItem) : Prop :=
  a.priority < b.priority ∨ (a.priority = b.priority ∧ a.timestamp ≤ b.timestamp)

instance : DecidableRel syncItemOrder := fun a b => by
  unfold syncItemOrder; infer_instance

instance : IsTotal SyncItem syncItemOrder := by
  constructor; intro a b; unfold syncItemOrder; omega

instance : IsTrans SyncItem syncItemOrder := by
  constructor; intro a b c; unfold syncItemOrder; omega

/-- Comparator used by `activateEmergencySync`'s sort: priority only. -/
def priorityOrder (a b : SyncItem) : Prop := a.priority ≤ b.priority

instance : DecidableRel priorityOrder := fun a b => by
  unfold priorityOrder; infer_instance

/-- Embedding of `queueForSync(record, priority = 3)`: push a fresh
`status: 'queued'` item (id and clock supplied by the caller as oracles for
`generateSyncId` and `new Date()`), stably re-sort the whole queue by
`(priority, timestamp)`, and start the sync process when it is not already
running (`isSyncing` is true afterwards in either case).  Returns the new
item's id. -/
def queueForSync (s : SyncManagerState) (record : SMRecord) (priority newId now : Nat) :
    SyncManagerState × Nat :=
  let item : SyncItem :=
    { id := newId, record := record, priority := priority, attempts := 0,
      lastAttempt := none, timestamp := now, status := "queued", error := none }
  ({ s with
     syncQueue := List.insertionSort syncItemOrder (s.syncQueue ++ [item]),
     isSyncing := true }, newId)

/-- Database effect of a successful `syncSingleItem`: update the existing
document when `record._id` resolves, otherwise insert a new document with
`synced: true`, `syncAttempts: 1` and `syncPriority` from the item. -/
def syncSingleItem (now : Nat) (item : SyncItem) (db : List MedicalRecordDoc)
    (nextDocId : Nat) : List MedicalRecordDoc × Nat :=
  let newDoc : MedicalRecordDoc :=
    { docId := nextDocId, soldierId := item.record.soldierId,
      encryptedData := item.record.encryptedData, synced := true,
      syncAttempts := 1, lastSyncAttempt := some now,
      syncPriority := some item.priority }
  match item.record.idOpt with
  | some rid =>
    match db.find? (fun d => d.docId == rid) with
    | some existing =>
        (db.map (fun d =>
          if d.docId == rid then
            { d with encryptedData := item.record.encryptedData, synced := true,
                     lastSyncAttempt := some now,
                     syncAttempts := existing.syncAttempts + 1 }
          else d), nextDocId)
    | none => (db ++ [newDoc], nextDocId + 1)
  | none => (db ++ [newDoc], nextDocId + 1)

/-- Retry branch of `processSyncBatch`'s catch handler:
`item.attempts++; item.lastAttempt = new Date(); item.status = 'retrying';
item.priority = Math.min(item.priority + 1, 1)`.  Note `Math.min(p + 1, 1)`
is 1 for every priority. -/
def retryUpdate (now : Nat) (item : SyncItem) : SyncItem :=
  { item with attempts := item.attempts + 1, lastAttempt := some now,
              status := "retrying", priority := Nat.min (item.priority + 1) 1 }

/-- Exhausted-retries branch (`handleSyncFailure`): `status = 'failed'`,
`error` recorded, `lastAttempt` updated; the item is not re-queued. -/
def failUpdate (now : Nat) (item : SyncItem) : SyncItem :=
  { item with status := "failed", error := some ("sync error"),
              lastAttempt := some now }

/-- Batch claimed by `processSyncBatch`:
`this.syncQueue.splice(0, this.syncBatchSize)` — the stored prefix of the
queue, in stored order (no re-sort happens at claim time). -/
def claimBatch (s : SyncManagerState) : List SyncItem :=
  s.syncQueue.take s.syncBatchSize

/-- Per-item body of `processSyncBatch`'s loop: on success (`ok` oracle for
the awaited `syncSingleItem`) apply the database write; on failure either
re-queue via `retryUpdate` (when `attempts < maxRetries`) or log a permanent
failure via `failUpdate`. -/
def processItem (ok : SyncItem → Bool) (now : Nat)
    (acc : SyncManagerState × BatchResults) (item : SyncItem) :
    SyncManagerState × BatchResults :=
  let st := acc.1
  let res := acc.2
  if ok item then
    let dbNext := syncSingleItem now item st.db st.nextDocId
    ({ st with db := dbNext.1, nextDocId := dbNext.2 },
     { res with successful := res.successful + 1 })
  else if item.attempts < st.maxRetries then
    ({ st with syncQueue := st.syncQueue ++ [retryUpdate now item] },
     { res with retried := res.retried + 1 })
  else
    ({ st with failureLog := st.failureLog ++ [failUpdate now item] },
     { res with failed := res.failed + 1 })

/-- Embedding of `processSyncBatch()`: an empty queue stops the sync process
(`isSyncing = false`); otherwise splice off the first `syncBatchSize` items
and process each one, re-queued retries landing behind the remaining tail. -/
def processSyncBatch (ok : SyncItem → Bool) (now : Nat) (s : SyncManagerState) :
    SyncManagerState × BatchResults :=
  if s.syncQueue.isEmpty then
    ({ s with isSyncing := false }, { successful := 0, failed := 0, retried := 0 })
  else
    (claimBatch s).foldl (processItem ok now)
      ({ s with syncQueue := s.syncQueue.drop s.syncBatchSize },
       { successful := 0, failed := 0, retried := 0 })

/-- Embedding of `forceSync()`: `await this.processSyncBatch()` with no guard
of any kind. -/
def forceSync (ok : SyncItem → Bool) (now : Nat) (s : SyncManagerState) :
    SyncManagerState × BatchResults :=
  processSyncBatch ok now s

/-- Embedding of `clearQueue()`: `this.syncQueue = []`. -/
def clearQueue (s : SyncManagerState) : SyncManagerState :=
  { s with syncQueue := [] }

/-- Priority breakdown of `getQueuePriorityBreakdown()`, as the count of
queue items carrying each priority value. -/
def getQueuePriorityBreakdown (s : SyncManagerState) : Nat → Nat :=
  fun p => (s.syncQueue.filter (fun i => i.priority == p)).length

/-- Embedding of `getLastSyncTime()`: latest `lastAttempt` among
`status === 'synced'` items still in the queue, if any. -/
def getLastSyncTime (s : SyncManagerState) : Option Nat :=
  ((s.syncQueue.filter (fun i => i.status == ("synced"))).filterMap
    (fun i => i.lastAttempt)).max?

/-- Result object of `getSyncStatus()`. -/
structure SyncStatusReport where
  isSyncing : Bool
  queueLength : Nat
  queuePriorities : Nat → Nat
  lastSync : Option Nat

/-- Embedding of `getSyncStatus()`. -/
def getSyncStatus (s : SyncManagerState) : SyncStatusReport :=
  { isSyncing := s.isSyncing, queueLength := s.syncQueue.length,
    queuePriorities := getQueuePriorityBreakdown s, lastSync := getLastSyncTime s }

/-- Escalation applied to each queue item by `activateEmergencySync`:
`item.priority = 1`. -/
def escalateItem (i : SyncItem) : SyncItem :=
  { i with priority := 1 }

/-- Embedding of `activateEmergencySync()`: set every item's priority to 1,
re-sort by priority, then process a batch immediately. -/
def activateEmergencySync (ok : SyncItem → Bool) (now : Nat) (s : SyncManagerState) :
    SyncManagerState × BatchResults :=
  let s1 := { s with syncQueue := s.syncQueue.map escalateItem }
  let s2 := { s1 with syncQueue := List.insertionSort priorityOrder s1.syncQueue }
  processSyncBatch ok now s2

/-- Iterated delivery passes in which every delivery attempt fails (the
all-`RejectedTransient` scenario of the retry-cap property). -/
def runFailingPasses (now : Nat) (s : SyncManagerState) : Nat → SyncManagerState
  | 0 => s
  | Nat.succ k => runFailingPasses now (processSyncBatch (fun _ => false) now s).1 k

/-- Updates a record's sync metadata can undergo while it sits in the queue:
a retry resolution (`processSyncBatch`'s catch handler) or an emergency
escalation (`activateEmergencySync`). -/
inductive SyncOp where
  | retry (now : Nat)
  | escalate
deriving DecidableEq

/-- Effect of one `SyncOp` on a queue item, via the same updates used by
`processSyncBatch` and `activateEmergencySync`. -/
def applyOp : SyncOp → SyncItem → SyncItem
  | SyncOp.retry now, i => retryUpdate now i
  | SyncOp.escalate, i => escalateItem i

/-- Successive priorities of an item along a sequence of operations. -/
def priorityTrace (ops : List SyncOp) (item : SyncItem) : List Nat :=
  (ops.scanl (fun i op => applyOp op i) item).map (fun i => i.priority)

/-! ## Concrete states used as test inputs -/

/-- Queue-entry type tag used by `saveMedicalRecord`. -/
def mrType : String := "medical_record"

/-- Empty local database. -/
def dbEx0 : DBState :=
  { records := [], syncQueue := [], nextQueueId := 0 }

/-- One unsynced record, id 1. -/
def recEx1 : MedRecord :=
  { id := 1, soldierId := "s1", triageLevel := some ("IMMEDIATE"),
    emergencyActions := none, synced := false, syncAttempts := 0,
    syncPriority := 1, lastSyncAttempt := none, createdAt := 0, updatedAt := 0 }

/-- Database holding record 1 (unsynced) plus its live sync-queue entry. -/
def dbEx1 : DBState :=
  { records := [recEx1],
    syncQueue := [{ id := 10, entryType := mrType, recordId := 1, priority := 1,
                    timestamp := 0, attempts := 0, lastAttempt := none }],
    nextQueueId := 11 }

/-- Four enqueues with priorities `[3, 1, 2, 1]` in that order (record ids
1 to 4, strictly increasing timestamps) — the ordering example of the spec. -/
def dbEx6 : DBState :=
  addToSyncQueue
    (addToSyncQueue
      (addToSyncQueue
        (addToSyncQueue dbEx0 mrType 1 3 0) mrType 2 1 1) mrType 3 2 2) mrType 4 1 3

/-- Database with one sync-queue entry whose record (id 5) is absent from the
record store: an orphaned queue entry. -/
def dbEx7 : DBState :=
  { records := [],
    syncQueue := [{ id := 3, entryType := mrType, recordId := 5, priority := 1,
                    timestamp := 0, attempts := 0, lastAttempt := none }],
    nextQueueId := 4 }

/-- Record payload with no remote `_id` yet. -/
def smRecEx : SMRecord :=
  { idOpt := none, soldierId := "s1", encryptedData := "payload" }

/-- Fresh queued sync item, priority 3, attempts 0. -/
def itemEx : SyncItem :=
  { id := 1, record := smRecEx, priority := 3, attempts := 0, lastAttempt := none,
    timestamp := 0, status := "queued", error := none }

/-- SyncManager (default configuration) holding exactly one queue item, with
a pass marked as running. -/
def singleItemManager (i : SyncItem) : SyncManagerState :=
  { initSyncManager with syncQueue := [i], isSyncing := true }

/-- SyncManager holding exactly `itemEx`, with a pass marked as running. -/
def smEx1 : SyncManagerState :=
  singleItemManager itemEx

/-- SyncManager after eleven enqueues: ten priority-3 items (ids 1-10,
timestamps 0-9) and one priority-2 item (id 11, timestamp 10).  The
priority-2 item sits at the front of the sorted queue and the batch size
is 10, so the first pass claims id 11 and ids 1-9, leaving id 10 behind. -/
def smEx11 : SyncManagerState :=
  (queueForSync
    ((List.range 10).foldl (fun s k => (queueForSync s smRecEx 3 (k + 1) k).1)
      initSyncManager)
    smRecEx 2 11 10).1

/-- State after one pass over `smEx11` in which only item 11 fails delivery:
item 11 is re-queued (priority escalated) behind the untouched id-10 entry. -/
def smEx11After : SyncManagerState :=
  (processSyncBatch (fun item => !(item.id == 11)) 20 smEx11).1

/-! ## Helper lemmas -/

theorem filter_orderedInsert_of_neg {α : Type} (r : α → α → Prop) [DecidableRel r]
    (P : α → Bool) (a : α) (hPa : P a = false) :
    ∀ l : List α, (List.orderedInsert r a l).filter P = l.filter P := by
  intro l
  induction l with
  | nil => simp [List.orderedInsert, hPa]
  | cons b l ih =>
    unfold List.orderedInsert
    split_ifs with h
    · simp [List.filter_cons, hPa]
    · simp only [List.filter_cons, ih]

theorem filter_orderedInsert_of_pos {α : Type} (r : α → α → Prop) [DecidableRel r]
    (P : α → Bool) (a : α) (hPa : P a = true) (hcl : ∀ b, P b = true → r a b) :
    ∀ l : List α, (List.orderedInsert r a l).filter P = a :: l.filter P := by
  intro l
  induction l with
  | nil => simp [List.orderedInsert, hPa]
  | cons b l ih =>
    unfold List.orderedInsert
    split_ifs with h
    · simp [List.filter_cons, hPa]
    · have hPb : P b = false := by
        cases hb : P b
        · rfl
        · exact absurd (hcl b hb) h
      simp only [List.filter_cons, hPb, ih]
      simp

/-- Stability of the stable sort on a tie class: filtering by a predicate
whose holders are all mutually related commutes with sorting, i.e. the sort
keeps the original (insertion) order inside the class. -/
theorem filter_insertionSort_tieclass {α : Type} (r : α → α → Prop) [DecidableRel r]
    (P : α → Bool) (hcl : ∀ a b, P a = true → P b = true → r a b) :
    ∀ l : List α, (List.insertionSort r l).filter P = l.filter P := by
  intro l
  induction l with
  | nil => rfl
  | cons a l ih =>
    rw [List.insertionSort]
    cases ha : P a
    · rw [filter_orderedInsert_of_neg r P a ha, ih, List.filter_cons, ha]
      simp
    · rw [filter_orderedInsert_of_pos r P a ha (fun b hb => hcl a b ha hb), ih,
        List.filter_cons, ha]
      simp

/-- The `sync_queue` object store has no index named `recordId`, so the
deletion step of `markAsSynced` always throws and the queue is untouched. -/
theorem markAsSynced_syncQueue (s : DBState) (recordId now : Nat) :
    (markAsSynced s recordId now).syncQueue = s.syncQueue := by
  have hidx : ¬ (("recordId") ∈ syncQueueIndexNames) := by decide
  unfold markAsSynced
  rw [if_neg hidx]
  split <;> rfl

theorem foldl_attemptSyncStep_syncQueue (soldierId : String) (ok : Nat → Bool) (now : Nat) :
    ∀ (pending : List SyncQueueItem) (acc : DBState),
      (pending.foldl (attemptSyncStep soldierId ok now) acc).syncQueue = acc.syncQueue
  | [], _ => rfl
  | item :: rest, acc => by
    rw [List.foldl_cons, foldl_attemptSyncStep_syncQueue soldierId ok now rest]
    unfold attemptSyncStep
    cases hl : lookupRecordFor acc soldierId item.recordId <;> simp only [hl]
    split_ifs with hok
    · exact markAsSynced_syncQueue acc item.recordId now
    · rfl

theorem foldl_attemptSyncStep_orphans (soldierId : String) (ok : Nat → Bool) (now : Nat) :
    ∀ (pending : List SyncQueueItem) (s : DBState),
      (∀ item ∈ pending, lookupRecordFor s soldierId item.recordId = none) →
      pending.foldl (attemptSyncStep soldierId ok now) s = s
  | [], _, _ => rfl
  | item :: rest, s, h => by
    rw [List.foldl_cons]
    have hstep : attemptSyncStep soldierId ok now s item = s := by
      unfold attemptSyncStep
      rw [h item (List.mem_cons_self item rest)]
    rw [hstep]
    exact foldl_attemptSyncStep_orphans soldierId ok now rest s
      (fun x hx => h x (List.mem_cons_of_mem item hx))

theorem foldl_processItem_total (ok : SyncItem → Bool) (now : Nat) :
    ∀ (batch : List SyncItem) (acc : SyncManagerState × BatchResults),
      resTotal (batch.foldl (processItem ok now) acc).2 = resTotal acc.2 + batch.length
  | [], acc => by simp
  | item :: rest, acc => by
    rw [List.foldl_cons, foldl_processItem_total ok now rest]
    have hstep : resTotal (processItem ok now acc item).2 = resTotal acc.2 + 1 := by
      unfold processItem resTotal
      dsimp only
      split_ifs <;> dsimp only <;> omega
    rw [hstep, List.length_cons]
    omega

theorem foldl_processItem_isSyncing (ok : SyncItem → Bool) (now : Nat) :
    ∀ (batch : List SyncItem) (acc : SyncManagerState × BatchResults),
      (batch.foldl (processItem ok now) acc).1.isSyncing = acc.1.isSyncing
  | [], _ => rfl
  | item :: rest, acc => by
    rw [List.foldl_cons, foldl_processItem_isSyncing ok now rest]
    unfold processItem
    dsimp only
    split_ifs <;> rfl

theorem applyOp_priority (op : SyncOp) (i : SyncItem) : (applyOp op i).priority = 1 := by
  cases op with
  | retry now =>
      show Nat.min (i.priority + 1) 1 = 1
      exact Nat.min_eq_right (by omega)
  | escalate => rfl

theorem priorityTrace_head (ops : List SyncOp) (item : SyncItem) :
    (priorityTrace ops item).head? = some item.priority := by
  cases ops <;> simp [priorityTrace, List.scanl]

/-- One all-failing pass over a single-item queue whose item has spare
retries: the item is re-queued via `retryUpdate`. -/
theorem processSyncBatch_single_retry (i : SyncItem) (now : Nat) (h : i.attempts < 3) :
    (processSyncBatch (fun _ => false) now (singleItemManager i)).1 =
      singleItemManager (retryUpdate now i) := by
  have hbatch : claimBatch (singleItemManager i) = [i] := rfl
  have hempty : (singleItemManager i).syncQueue.isEmpty = false := rfl
  unfold processSyncBatch
  rw [hempty, hbatch]
  simp only [Bool.false_eq_true, if_false, List.foldl_cons, List.foldl_nil]
  unfold processItem
  dsimp only [singleItemManager, initSyncManager]
  rw [if_pos h]
  simp

/-- One all-failing pass over a single-item queue whose item has exhausted
its retries: the item is dropped from the queue and logged as failed. -/
theorem processSyncBatch_single_fail (i : SyncItem) (now : Nat) (h : ¬ i.attempts < 3) :
    (processSyncBatch (fun _ => false) now (singleItemManager i)).1 =
      { initSyncManager with syncQueue := [], isSyncing := true,
                             failureLog := [failUpdate now i] } := by
  have hbatch : claimBatch (singleItemManager i) = [i] := rfl
  have hempty : (singleItemManager i).syncQueue.isEmpty = false := rfl
  unfold processSyncBatch
  rw [hempty, hbatch]
  simp only [Bool.false_eq_true, if_false, List.foldl_cons, List.foldl_nil]
  unfold processItem
  dsimp only [singleItemManager, initSyncManager]
  rw [if_neg h]
  simp

/-! ## Claim theorems -/

/-- C1: evaluation of `markAsSynced` at its intended input.  The claim says
the record's `synced` flag and the deletion of every `sync_queue` entry for
the record are applied together.  In the code the record write commits, but
the queue deletion runs `store.index('recordId')` on a store whose only
indexes are `priority` and `timestamp`, so it throws `NotFoundError`, the
`catch` swallows it, and the entry for record 1 is still live while
`synced = true`. -/
theorem markAsSynced_leaves_live_queue_entry :
    (markAsSynced dbEx1 1 5).records.map (fun r => r.synced) = [true] ∧
    (markAsSynced dbEx1 1 5).syncQueue = dbEx1.syncQueue ∧
    ((markAsSynced dbEx1 1 5).syncQueue.filter (fun i => i.recordId == 1)).length = 1 := by
  decide

/-- C2 counterexample: a single queued item (attempts 0) whose every delivery
fails.  After 3 failed delivery calls it is still live in the queue with
`attempts = 3` and nothing logged as permanently failed, refuting "transitions
to the permanent-failure state after exactly 3 failed attempts"; only the
fourth failed call marks it failed. -/
theorem retry_cap_three_counterexample :
    (runFailingPasses 7 smEx1 3).failureLog = [] ∧
    (runFailingPasses 7 smEx1 3).syncQueue.map (fun i => i.attempts) = [3] ∧
    (runFailingPasses 7 smEx1 4).syncQueue = [] ∧
    (runFailingPasses 7 smEx1 4).failureLog.map (fun i => i.status) = [("failed")] := by
  decide

/-- C2 (amended): with `maxRetries = 3`, an always-failing item is marked
permanently failed after exactly `maxRetries + 1 = 4` failed delivery calls:
after `k ≤ 3` failing passes it is still queued with `attempts = k` and no
permanent failure logged; the fourth failing pass empties the queue and logs
the item with status `failed`. -/
theorem retry_cap_permanent_after_four_attempts (i : SyncItem) (now : Nat)
    (h : i.attempts = 0) :
    (∀ k, k ≤ 3 →
      (runFailingPasses now (singleItemManager i) k).syncQueue.map (fun x => x.attempts) =
        [k] ∧
      (runFailingPasses now (singleItemManager i) k).failureLog = []) ∧
    (runFailingPasses now (singleItemManager i) 4).syncQueue = [] ∧
    (runFailingPasses now (singleItemManager i) 4).failureLog.map (fun x => x.status) =
      [("failed")] := by
  have a1 : (retryUpdate now i).attempts = 1 := by simp [retryUpdate, h]
  have a2 : (retryUpdate now (retryUpdate now i)).attempts = 2 := by simp [retryUpdate, h]
  have a3 : (retryUpdate now (retryUpdate now (retryUpdate now i))).attempts = 3 := by
    simp [retryUpdate, h]
  have p1 := processSyncBatch_single_retry i now (by omega)
  have p2 := processSyncBatch_single_retry (retryUpdate now i) now (by omega)
  have p3 := processSyncBatch_single_retry (retryUpdate now (retryUpdate now i)) now (by omega)
  have p4 := processSyncBatch_single_fail
    (retryUpdate now (retryUpdate now (retryUpdate now i))) now (by omega)
  have q1 : runFailingPasses now (singleItemManager i) 1 =
      singleItemManager (retryUpdate now i) := by
    show (processSyncBatch (fun _ => false) now (singleItemManager i)).1 = _
    exact p1
  have q2 : runFailingPasses now (singleItemManager i) 2 =
      singleItemManager (retryUpdate now (retryUpdate now i)) := by
    show runFailingPasses now
      (processSyncBatch (fun _ => false) now (singleItemManager i)).1 1 = _
    rw [p1]
    show (processSyncBatch (fun _ => false) now
      (singleItemManager (retryUpdate now i))).1 = _
    exact p2
  have q3 : runFailingPasses now (singleItemManager i) 3 =
      singleItemManager (retryUpdate now (retryUpdate now (retryUpdate now i))) := by
    show runFailingPasses now
      (processSyncBatch (fun _ => false) now (singleItemManager i)).1 2 = _
    rw [p1]
    show runFailingPasses now
      (processSyncBatch (fun _ => false) now (singleItemManager (retryUpdate now i))).1 1 = _
    rw [p2]
    show (processSyncBatch (fun _ => false) now
      (singleItemManager (retryUpdate now (retryUpdate now i)))).1 = _
    exact p3
  have q4 : runFailingPasses now (singleItemManager i) 4 =
      { initSyncManager with
          syncQueue := []
          isSyncing := true
          failureLog := [failUpdate now (retryUpdate now (retryUpdate now (retryUpdate now i)))] } := by
    show runFailingPasses now
      (processSyncBatch (fun _ => false) now (singleItemManager i)).1 3 = _
    rw [p1]
    show runFailingPasses now
      (processSyncBatch (fun _ => false) now (singleItemManager (retryUpdate now i))).1 2 = _
    rw [p2]
    show runFailingPasses now
      (processSyncBatch (fun _ => false) now
        (singleItemManager (retryUpdate now (retryUpdate now i)))).1 1 = _
    rw [p3]
    show (processSyncBatch (fun _ => false) now
      (singleItemManager (retryUpdate now (retryUpdate now (retryUpdate now i))))).1 = _
    exact p4
  refine ⟨?_, ?_, ?_⟩
  · intro k hk
    interval_cases k
    · exact ⟨by simp [runFailingPasses, singleItemManager, initSyncManager, h], rfl⟩
    · rw [q1]; exact ⟨by simp [singleItemManager, a1], rfl⟩
    · rw [q2]; exact ⟨by simp [singleItemManager, a2], rfl⟩
    · rw [q3]; exact ⟨by simp [singleItemManager, a3], rfl⟩
  · rw [q4]
  · rw [q4]; simp [failUpdate]

/-- C2 witness: the amended retry-cap theorem applied to the concrete item
`itemEx`. -/
theorem retry_cap_permanent_after_four_attempts_witness :
    itemEx.attempts = 0 ∧
    (runFailingPasses 7 (singleItemManager itemEx) 4).syncQueue = [] ∧
    (runFailingPasses 7 (singleItemManager itemEx) 4).failureLog.map (fun x => x.status) =
      [("failed")] :=
  ⟨rfl, (retry_cap_permanent_after_four_attempts itemEx 7 rfl).2.1,
    (retry_cap_permanent_after_four_attempts itemEx 7 rfl).2.2⟩

/-- C3 counterexample: the priority-3 item `itemEx` fails retryably with
`attempts = 0 < maxRetries`.  The re-queued entry has priority 1 (the code's
`Math.min(priority + 1, 1)`), status `retrying`, and its enqueue timestamp
still 0 — not priority `max(1, 3 - 1) = 2`, not status `queued`, and not
timestamp reset to the current time 7, as the claim states. -/
theorem retry_requeue_counterexample :
    ((processSyncBatch (fun _ => false) 7 smEx1).1.syncQueue.map
        (fun i => (i.priority, i.status, i.timestamp))) = [(1, ("retrying"), 0)] ∧
    ¬ ((processSyncBatch (fun _ => false) 7 smEx1).1.syncQueue.map
        (fun i => (i.priority, i.status, i.timestamp))) =
      [(Nat.max 1 (3 - 1), ("queued"), 7)] := by
  decide

/-- C3 (amended): a retryable failure with `attempts < maxRetries` re-queues
the item with priority 1 (always — `Math.min(p + 1, 1) = 1` for every `p`),
status `retrying` (not `queued`), `attempts` incremented, `lastAttempt` set
to now, and the original enqueue timestamp untouched (everything not listed
in the update, in particular `timestamp`, is unchanged). -/
theorem retry_requeues_with_priority_one (i : SyncItem) (now : Nat)
    (h : i.attempts < 3) :
    (processSyncBatch (fun _ => false) now (singleItemManager i)).1.syncQueue =
      [{ i with attempts := i.attempts + 1, lastAttempt := some now,
                status := "retrying", priority := 1 }] := by
  have hmin : Nat.min (i.priority + 1) 1 = 1 := Nat.min_eq_right (by omega)
  rw [processSyncBatch_single_retry i now h]
  simp [singleItemManager, retryUpdate, hmin]

/-- C3 witness: the amended retry theorem applied to `itemEx` at time 7. -/
theorem retry_requeues_with_priority_one_witness :
    itemEx.attempts < 3 ∧
    (processSyncBatch (fun _ => false) 7 (singleItemManager itemEx)).1.syncQueue =
      [{ itemEx with attempts := itemEx.attempts + 1, lastAttempt := some 7,
                     status := "retrying", priority := 1 }] :=
  ⟨by decide, retry_requeues_with_priority_one itemEx 7 (by decide)⟩

/-- C4 counterexample: two enqueues for the same record id 7 on an empty
database leave two live `sync_queue` entries for that record, refuting
"exactly one live entry exists afterward" (and no priority merge happened —
each call appended its own entry). -/
theorem enqueue_duplicate_counterexample :
    ((addToSyncQueue (addToSyncQueue dbEx0 mrType 7 3 0) mrType 7 2 1).syncQueue.filter
        (fun i => i.recordId == 7)).length = 2 ∧
    ¬ (((addToSyncQueue (addToSyncQueue dbEx0 mrType 7 3 0) mrType 7 2 1).syncQueue.filter
        (fun i => i.recordId == 7)).length = 1) := by
  decide

/-- C4 (amended): every enqueue call unconditionally appends a fresh queue
entry — `addToSyncQueue` grows the number of entries for the given record id
by exactly one, and `queueForSync` grows the number of items carrying the
given record by exactly one, regardless of whether a live entry for that
record already exists; no existing entry is updated or merged. -/
theorem enqueue_always_appends_new_entry :
    (∀ (s : DBState) (entryType : String) (recordId priority now : Nat),
      (addToSyncQueue s entryType recordId priority now).syncQueue.countP
          (fun i => i.recordId == recordId) =
        s.syncQueue.countP (fun i => i.recordId == recordId) + 1) ∧
    (∀ (s : SyncManagerState) (record : SMRecord) (priority newId now : Nat),
      (queueForSync s record priority newId now).1.syncQueue.countP
          (fun i => i.record == record) =
        s.syncQueue.countP (fun i => i.record == record) + 1) := by
  constructor
  · intro s entryType recordId priority now
    unfold addToSyncQueue
    simp [List.countP_append, List.countP_cons]
  · intro s record priority newId now
    unfold queueForSync
    dsimp only
    rw [(List.perm_insertionSort syncItemOrder _).countP_eq]
    simp [List.countP_append, List.countP_cons]

/-- C5 counterexample: in the state `smEx1` a pass is marked running
(`isSyncing = true`) and one item is queued.  Invoking `forceSync` in this
state does not join or await anything: the invocation itself claims and
processes the batch (one successful delivery, queue emptied), i.e. it starts
a second pass while one is running. -/
theorem forceSync_while_running_counterexample :
    smEx1.isSyncing = true ∧
    (forceSync (fun _ => true) 9 smEx1).2.successful = 1 ∧
    (forceSync (fun _ => true) 9 smEx1).1.syncQueue = [] := by
  decide

/-- C5 (amended): `SyncManager.forceSync` has no re-entrancy guard at all —
on any state with a non-empty queue (whatever the value of `isSyncing`, in
particular while a pass is running) the invocation itself processes a full
batch of `min(syncBatchSize, queueLength)` items, and it neither consults
nor changes the `isSyncing` flag.  (Only the separate `useOfflineSync` hook
guards its own `attemptSync` with an `isSyncing` early return, which skips
rather than joins.) -/
theorem forceSync_runs_pass_unconditionally (ok : SyncItem → Bool) (now : Nat)
    (s : SyncManagerState) (h : s.syncQueue ≠ []) :
    resTotal (forceSync ok now s).2 = Nat.min s.syncBatchSize s.syncQueue.length ∧
    (forceSync ok now s).1.isSyncing = s.isSyncing := by
  have hne : s.syncQueue.isEmpty = false := by
    cases hq : s.syncQueue
    · exact absurd hq h
    · rfl
  unfold forceSync processSyncBatch
  rw [hne]
  simp only [Bool.false_eq_true, if_false]
  constructor
  · rw [foldl_processItem_total]
    simp [claimBatch, resTotal, List.length_take]
  · rw [foldl_processItem_isSyncing]

/-- C5 witness: the amended forceSync theorem applied to `smEx1` (which has
`isSyncing = true`). -/
theorem forceSync_runs_pass_unconditionally_witness :
    smEx1.syncQueue ≠ [] ∧
    resTotal (forceSync (fun _ => false) 3 smEx1).2 =
      Nat.min smEx1.syncBatchSize smEx1.syncQueue.length :=
  ⟨by decide, (forceSync_runs_pass_unconditionally (fun _ => false) 3 smEx1 (by decide)).1⟩

/-- C6 counterexample: in the SyncManager, the claimed batch is the stored
prefix of the queue (`splice(0, batchSize)`) and is not re-sorted at dequeue
time.  Starting from eleven enqueues, one pass in which only the priority-2
item (id 11) fails re-queues it with escalated priority 1 behind the leftover
priority-3 item; the batch the next pass claims is `[priority 3, priority 1]`
— not in (priority, enqueuedAt) ascending order, refuting the claim for this
dequeue path. -/
theorem batch_order_not_reevaluated_counterexample :
    (claimBatch smEx11After).map (fun i => i.priority) = [3, 1] ∧
    ¬ List.Pairwise syncItemOrder (claimBatch smEx11After) := by
  decide

/-- C6 (amended): for the offlineDB dequeue path the claim holds —
`getPendingSyncItems` re-sorts the current queue on every call and returns up
to `limit` entries sorted by (priority, timestamp) with ties kept in
insertion order (filtering any (priority, timestamp) tie class commutes with
the sort), and the spec's `[3,1,2,1]` example comes back as
`[p1-first, p1-second, p2, p3]`.  The SyncManager splice path does not
re-evaluate ordering (see the counterexample). -/
theorem getPendingSyncItems_ordering :
    (∀ (s : DBState) (limit : Nat), (getPendingSyncItems s limit).length ≤ limit) ∧
    (∀ (s : DBState) (limit : Nat), List.Sorted syncOrder (getPendingSyncItems s limit)) ∧
    (∀ (s : DBState) (limit : Nat) (x : SyncQueueItem),
      x ∈ getPendingSyncItems s limit → x ∈ s.syncQueue) ∧
    (∀ (s : DBState) (p t : Nat),
      (getPendingSyncItems s s.syncQueue.length).filter
          (fun i => i.priority == p && i.timestamp == t) =
        s.syncQueue.filter (fun i => i.priority == p && i.timestamp == t)) ∧
    ((getPendingSyncItems dbEx6 4).map (fun i => (i.recordId, i.priority)) =
      [(2, 1), (4, 1), (3, 2), (1, 3)]) := by
  refine ⟨?_, ?_, ?_, ?_, by decide⟩
  · intro s limit
    simp [getPendingSyncItems]
  · intro s limit
    exact (List.sorted_insertionSort syncOrder s.syncQueue).sublist
      (List.take_sublist _ _)
  · intro s limit x hx
    exact (List.mem_insertionSort syncOrder).mp (List.mem_of_mem_take hx)
  · intro s p t
    unfold getPendingSyncItems
    rw [List.take_of_length_le
      (le_of_eq (List.Perm.length_eq (List.perm_insertionSort syncOrder s.syncQueue)))]
    refine filter_insertionSort_tieclass syncOrder _ ?_ s.syncQueue
    intro a b ha hb
    simp only [Bool.and_eq_true, beq_iff_eq] at ha hb
    exact Or.inr ⟨ha.1.trans hb.1.symm, (ha.2.trans hb.2.symm).le⟩

/-- C6 witness: the ordering theorem applied at the concrete `[3,1,2,1]`
state, discharging the membership hypothesis on the first returned entry. -/
theorem getPendingSyncItems_ordering_witness :
    ({ id := 1, entryType := mrType, recordId := 2, priority := 1, timestamp := 1,
       attempts := 0, lastAttempt := none } : SyncQueueItem) ∈ getPendingSyncItems dbEx6 4 ∧
    ({ id := 1, entryType := mrType, recordId := 2, priority := 1, timestamp := 1,
       attempts := 0, lastAttempt := none } : SyncQueueItem) ∈ dbEx6.syncQueue :=
  ⟨by decide, getPendingSyncItems_ordering.2.2.1 dbEx6 4 _ (by decide)⟩

/-- C7 counterexample: `dbEx7` holds a queue entry for record 5 but no such
record.  An `attemptSync` pass leaves the whole database state unchanged —
the orphaned entry is skipped with a warning (`continue`), stays queued, and
is returned again by the next `getPendingSyncItems`, i.e. it is retried on
later passes and never resolved as a permanent failure. -/
theorem orphaned_entry_stays_counterexample :
    (attemptSyncPass dbEx7 ("s1") (fun _ => true) 5 9) = dbEx7 ∧
    getPendingSyncItems (attemptSyncPass dbEx7 ("s1") (fun _ => true) 5 9) 5 =
      getPendingSyncItems dbEx7 5 ∧
    (getPendingSyncItems dbEx7 5).map (fun i => i.recordId) = [5] := by
  decide

/-- C7 (amended): an `attemptSync` pass never removes or re-labels any
sync-queue entry (the queue after a pass is exactly the queue before, and the
next pass sees the same pending items), and when every pending item's record
is missing the pass changes nothing at all: orphaned entries are skipped and
retried indefinitely, not resolved as permanent failures. -/
theorem attemptSync_missing_record_skipped :
    (∀ (s : DBState) (soldierId : String) (ok : Nat → Bool) (limit now : Nat),
      (attemptSyncPass s soldierId ok limit now).syncQueue = s.syncQueue) ∧
    (∀ (s : DBState) (soldierId : String) (ok : Nat → Bool) (limit now : Nat),
      getPendingSyncItems (attemptSyncPass s soldierId ok limit now) limit =
        getPendingSyncItems s limit) ∧
    (∀ (s : DBState) (soldierId : String) (ok : Nat → Bool) (limit now : Nat),
      (∀ item ∈ getPendingSyncItems s limit,
        lookupRecordFor s soldierId item.recordId = none) →
      attemptSyncPass s soldierId ok limit now = s) := by
  refine ⟨?_, ?_, ?_⟩
  · intro s soldierId ok limit now
    exact foldl_attemptSyncStep_syncQueue soldierId ok now _ s
  · intro s soldierId ok limit now
    unfold getPendingSyncItems attemptSyncPass
    rw [foldl_attemptSyncStep_syncQueue soldierId ok now _ s]
  · intro s soldierId ok limit now h
    exact foldl_attemptSyncStep_orphans soldierId ok now _ s h

/-- C7 witness: the orphan theorem applied to the concrete orphaned state
`dbEx7`. -/
theorem attemptSync_missing_record_skipped_witness :
    (∀ item ∈ getPendingSyncItems dbEx7 5,
      lookupRecordFor dbEx7 ("s1") item.recordId = none) ∧
    attemptSyncPass dbEx7 ("s1") (fun _ => true) 5 9 = dbEx7 :=
  ⟨by decide,
    attemptSync_missing_record_skipped.2.2 dbEx7 ("s1") (fun _ => true) 5 9 (by decide)⟩

/-- C8: along any sequence of retry resolutions and emergency escalations
applied to an item whose priority starts at 1 or more (the classifier range
is {1,2,3}), the successive priority values form a non-increasing chain —
both updates set the priority to 1, so urgency is never relaxed. -/
theorem priority_never_relaxes (ops : List SyncOp) (item : SyncItem)
    (h : 1 ≤ item.priority) :
    List.Chain' (fun a b => b ≤ a) (priorityTrace ops item) := by
  induction ops generalizing item with
  | nil => simp [priorityTrace]
  | cons op ops ih =>
    have hexp : priorityTrace (op :: ops) item =
        item.priority :: priorityTrace ops (applyOp op item) := by
      simp [priorityTrace, List.scanl_cons]
    rw [hexp, List.chain'_cons']
    constructor
    · intro b hb
      rw [priorityTrace_head ops (applyOp op item)] at hb
      simp only [Option.mem_def, Option.some_inj] at hb
      rw [← hb, applyOp_priority]
      exact h
    · exact ih (applyOp op item) (le_of_eq (applyOp_priority op item).symm)

/-- C8 witness: the non-relaxation theorem applied to `itemEx` (priority 3)
under one retry and one emergency escalation. -/
theorem priority_never_relaxes_witness :
    1 ≤ itemEx.priority ∧
    List.Chain' (fun a b => b ≤ a)
      (priorityTrace [SyncOp.retry 5, SyncOp.escalate] itemEx) :=
  ⟨by decide, priority_never_relaxes [SyncOp.retry 5, SyncOp.escalate] itemEx (by decide)⟩

/-- C9: `calculateSyncPriority` agrees with the spec contract
`classify(triageLevel, emergencyActionsPresent)` on every record — so it is a
deterministic total function of exactly those two inputs — and its value is
always in {1,2,3}: IMMEDIATE gives 1, otherwise present emergency actions
give 1, otherwise DELAYED gives 2, otherwise (MINOR, EXPECTANT, missing or
unknown triage) 3, with no error case. -/
theorem calculateSyncPriority_contract (r : MedRecord) :
    calculateSyncPriority r = classifySpec r.triageLevel (emergencyActionsPresent r) ∧
    (calculateSyncPriority r = 1 ∨ calculateSyncPriority r = 2 ∨
      calculateSyncPriority r = 3) := by
  constructor
  · rfl
  · unfold calculateSyncPriority
    split_ifs <;> simp

/-- C10: `clearQueue` empties the sync queue unconditionally — afterward the
queue is `[]`, `getSyncStatus` reports queue length 0 and an all-zero
priority breakdown, the next `processSyncBatch` is a no-op with zero counts
(queued-but-unsynced records are silently dropped from automatic delivery),
and the record store and `isSyncing` flag are untouched. -/
theorem clearQueue_removes_all_work (s : SyncManagerState) (ok : SyncItem → Bool)
    (now : Nat) :
    (clearQueue s).syncQueue = [] ∧
    (getSyncStatus (clearQueue s)).queueLength = 0 ∧
    (∀ p, (getSyncStatus (clearQueue s)).queuePriorities p = 0) ∧
    (clearQueue s).db = s.db ∧
    (clearQueue s).isSyncing = s.isSyncing ∧
    (processSyncBatch ok now (clearQueue s)).1.syncQueue = [] ∧
    (processSyncBatch ok now (clearQueue s)).2 =
      { successful := 0, failed := 0, retried := 0 } := by
  refine ⟨rfl, rfl, fun p => rfl, rfl, rfl, ?_, ?_⟩ <;>
    simp [processSyncBatch, clearQueue]
